import Mathlib

/-!
Shallow embedding of the reusable MVC core of `useful-mvc.py` and
`useful-mvc-noc.py` (the `Observable` base class, the `Score` and `User`
models, and the `ScoreController` / `UserController` mediators).  The two
files share an identical core, so one embedding covers both.

Modelling choices:

* Observer callbacks are opaque values of a type `κ` with decidable
  equality (Python compares callables by identity in `list.remove`).
* The subscriber list `self._observers` is a Lean `List κ`; `subscribe`
  appends (`list.append`), `unsubscribe` removes the first matching
  occurrence (`list.remove`), raising `ValueError` when absent — modelled
  with `Except`.
* A call to `notify_observers` is recorded as a *cycle*: the list of
  callback invocations it performs, in order.  Each invocation records the
  callback, the subject passed as first argument (`observer(self, ...)`),
  and the extra arguments.  Mutating operations return the new state
  together with the list of notification cycles they trigger.
* Python attributes that may be unread before first assignment
  (`User.__firstname` etc.) are `Option`s; reading an unset attribute
  raises `AttributeError`, and `list.remove` of a missing element raises
  `ValueError`, both modelled by `PyError` in an `Except`.
* The `print` diagnostics are side effects with no bearing on state or
  notification and are not modelled, except that `User.save`'s f-string
  reads all three properties, so `save` raises `AttributeError` when any
  field is unset.
-/

/-- Exceptions the core can raise: `ValueError` from `list.remove` on a
missing element, `AttributeError` from reading a never-assigned
attribute. -/
inductive PyError : Type where
  | valueError : PyError
  | attributeError : PyError
deriving DecidableEq, Repr

/-- One callback invocation performed during a notification cycle:
the callback called, the subject passed as first argument, and the extra
arguments (`observer(self, *args, **kwargs)`). -/
structure Invocation (κ σ α : Type) where
  cb : κ
  subject : σ
  args : α
deriving Repr

/-- One notification cycle: the invocations performed by a single call to
`notify_observers`, in order. -/
abbrev NotifyCycle (κ σ α : Type) := List (Invocation κ σ α)

/-- The body of `Observable.notify_observers`:
`for observer in self._observers: observer(self, *args, **kwargs)` —
one invocation per list entry, in list order, subject first. -/
def notifyList (observers : List κ) (subject : σ) (args : α) : NotifyCycle κ σ α :=
  observers.map (fun observer => ⟨observer, subject, args⟩)

/-- Python `list.remove(a)`: remove the first occurrence of `a`,
`none` when `a` is not in the list (CPython raises `ValueError` and
leaves the list untouched). -/
def list_remove [DecidableEq κ] : List κ → κ → Option (List κ)
  | [], _ => none
  | x :: xs, a => if x = a then some xs else (list_remove xs a).map (fun ys => x :: ys)

/-- The `Observable` base class: its only state is `self._observers`. -/
structure Observable (κ : Type) where
  _observers : List κ
deriving Repr

/-- `Observable.__init__`: `self._observers = []`. -/
def Observable.init (κ : Type) : Observable κ := ⟨[]⟩

/-- `Observable.subscribe`: `self._observers.append(observer)`. -/
def Observable.subscribe (s : Observable κ) (observer : κ) : Observable κ :=
  ⟨s._observers ++ [observer]⟩

/-- `Observable.notify_observers(*args, **kwargs)`: invokes every entry of
`self._observers` in order, passing `self` first; returns the cycle's
invocation trace. -/
def Observable.notify_observers (s : Observable κ) (args : α) :
    NotifyCycle κ (Observable κ) α :=
  notifyList s._observers s args

/-- `Observable.unsubscribe`: `self._observers.remove(observer)`;
`ValueError` when `observer` is not subscribed, in which case the list is
unchanged (the error carries no successor state). -/
def Observable.unsubscribe [DecidableEq κ] (s : Observable κ) (observer : κ) :
    Except PyError (Observable κ) :=
  match list_remove s._observers observer with
  | some l => Except.ok ⟨l⟩
  | none => Except.error PyError.valueError

/-- A sequence of `subscribe` calls, in order. -/
def subscribeAll (s : Observable κ) (cbs : List κ) : Observable κ :=
  cbs.foldl Observable.subscribe s

/-- The `Score` model: `Observable` state plus the private `__value`
attribute.  The constructor assigns through the notifying setter, so
`value` is always set once a `Score` exists. -/
structure Score (κ : Type) where
  _observers : List κ
  value : Int
deriving Repr

/-- A notification cycle of a `Score` subject (no extra arguments are ever
passed: `self.notify_observers()`). -/
abbrev ScoreCycle (κ : Type) := NotifyCycle κ (Score κ) Unit

/-- Inherited `subscribe` on a `Score` subject. -/
def Score.subscribe (s : Score κ) (observer : κ) : Score κ :=
  { s with _observers := s._observers ++ [observer] }

/-- The `value` property setter: stores the new value, prints a
diagnostic (not modelled), then calls `self.notify_observers()` — exactly
one cycle, over the subscribers present at call time. -/
def Score.setValue (s : Score κ) (v : Int) : Score κ × List (ScoreCycle κ) :=
  let s' : Score κ := { s with value := v }
  (s', [notifyList s'._observers s' ()])

/-- The `value` property getter. -/
def Score.getValue (s : Score κ) : Int := s.value

/-- `Score.__init__(value)`: `Observable.__init__` makes the subscriber
list empty, then `self.value = value` goes through the notifying setter
(the placeholder 0 is overwritten before anything can read it). -/
def Score.init (κ : Type) (v : Int) : Score κ × List (ScoreCycle κ) :=
  Score.setValue { _observers := [], value := 0 } v

/-- The `User` model: `Observable` state plus the private attributes
`__firstname`, `__lastname`, `__email`, all unset until first assigned. -/
structure User (κ : Type) where
  _observers : List κ
  firstname : Option String
  lastname : Option String
  email : Option String
deriving Repr

/-- A notification cycle of a `User` subject (no extra arguments). -/
abbrev UserCycle (κ : Type) := NotifyCycle κ (User κ) Unit

/-- `User.__init__`: empty subscriber list, all three fields unset. -/
def User.init (κ : Type) : User κ := ⟨[], none, none, none⟩

/-- Inherited `subscribe` on a `User` subject. -/
def User.subscribe (u : User κ) (observer : κ) : User κ :=
  { u with _observers := u._observers ++ [observer] }

/-- The `firstname` property getter: `return self.__firstname`, which
raises `AttributeError` when the attribute was never assigned. -/
def User.getFirstname (u : User κ) : Except PyError String :=
  match u.firstname with
  | some v => Except.ok v
  | none => Except.error PyError.attributeError

/-- The `lastname` property getter. -/
def User.getLastname (u : User κ) : Except PyError String :=
  match u.lastname with
  | some v => Except.ok v
  | none => Except.error PyError.attributeError

/-- The `email` property getter. -/
def User.getEmail (u : User κ) : Except PyError String :=
  match u.email with
  | some v => Except.ok v
  | none => Except.error PyError.attributeError

/-- The `firstname` property setter: plain overwrite, no notification
(the empty cycle list is the fact that the body contains no
`notify_observers` call). -/
def User.setFirstname (u : User κ) (value : String) : User κ × List (UserCycle κ) :=
  ({ u with firstname := some value }, [])

/-- The `lastname` property setter: plain overwrite, no notification. -/
def User.setLastname (u : User κ) (value : String) : User κ × List (UserCycle κ) :=
  ({ u with lastname := some value }, [])

/-- The `email` property setter: plain overwrite, no notification. -/
def User.setEmail (u : User κ) (value : String) : User κ × List (UserCycle κ) :=
  ({ u with email := some value }, [])

/-- `User.save()`: prints the three field values (so it reads all three
properties, raising `AttributeError` if any is unset), then calls
`self.notify_observers()` — exactly one cycle. -/
def User.save (u : User κ) : Except PyError (User κ × List (UserCycle κ)) :=
  match u.firstname, u.lastname, u.email with
  | some _, some _, some _ => Except.ok (u, [notifyList u._observers u ()])
  | _, _, _ => Except.error PyError.attributeError

/-- `ScoreController.increment`: `self.model.value += 1` — read the value,
assign value + 1 through the notifying setter. -/
def ScoreController.increment (m : Score κ) : Score κ × List (ScoreCycle κ) :=
  Score.setValue m (m.value + 1)

/-- `ScoreController.decrement`: `self.model.value -= 1`. -/
def ScoreController.decrement (m : Score κ) : Score κ × List (ScoreCycle κ) :=
  Score.setValue m (m.value - 1)

/-- `ScoreController.try_change_value`: `self.model.value = new_value`. -/
def ScoreController.try_change_value (m : Score κ) (new_value : Int) :
    Score κ × List (ScoreCycle κ) :=
  Score.setValue m new_value

/-- `UserController.save(firstname, lastname, email)`: assigns the three
fields through the non-notifying setters, then calls `self.model.save()`;
the returned trace concatenates the cycles of all four steps. -/
def UserController.save (m : User κ) (firstname lastname email : String) :
    Except PyError (User κ × List (UserCycle κ)) :=
  let r1 := User.setFirstname m firstname
  let r2 := User.setLastname r1.1 lastname
  let r3 := User.setEmail r2.1 email
  match User.save r3.1 with
  | Except.ok (u, t) => Except.ok (u, r1.2 ++ r2.2 ++ r3.2 ++ t)
  | Except.error err => Except.error err

/-! Helper lemmas about the embedded operations. -/

/-- A run of `subscribe` calls appends the callbacks, in call order. -/
theorem subscribeAll_observers (s : Observable κ) (cbs : List κ) :
    (subscribeAll s cbs)._observers = s._observers ++ cbs := by
  induction cbs generalizing s with
  | nil => simp [subscribeAll]
  | cons c cs ih =>
    show (subscribeAll (Observable.subscribe s c) cs)._observers = _
    rw [ih]
    simp [Observable.subscribe]

/-- The callbacks invoked by a cycle are exactly the subscriber list. -/
theorem notifyList_map_cb (observers : List κ) (subject : σ) (args : α) :
    (notifyList observers subject args).map Invocation.cb = observers := by
  simp [notifyList, List.map_map]
  exact List.map_id observers

/-- Every invocation of a cycle carries the subject and the arguments. -/
theorem notifyList_mem (observers : List κ) (subject : σ) (args : α) :
    ∀ inv ∈ notifyList observers subject args,
      inv.subject = subject ∧ inv.args = args := by
  intro inv hmem
  simp only [notifyList, List.mem_map] at hmem
  obtain ⟨o, _, rfl⟩ := hmem
  exact ⟨rfl, rfl⟩

/-- `list.remove` on a list not containing the element raises
(`none`). -/
theorem list_remove_not_mem [DecidableEq κ] (a : κ) (l : List κ) (h : a ∉ l) :
    list_remove l a = none := by
  induction l with
  | nil => rfl
  | cons x xs ih =>
    rw [List.mem_cons, not_or] at h
    unfold list_remove
    rw [if_neg (Ne.symm h.1), ih h.2]
    rfl

/-- Removing a freshly appended element whose value was absent before
yields the original list. -/
theorem list_remove_append_not_mem [DecidableEq κ] (a : κ) (l : List κ)
    (h : a ∉ l) :
    list_remove (l ++ [a]) a = some l := by
  induction l with
  | nil => simp [list_remove]
  | cons x xs ih =>
    rw [List.mem_cons, not_or] at h
    rw [List.cons_append]
    unfold list_remove
    rw [if_neg (Ne.symm h.1), ih h.2]
    rfl

/-! The claims. -/

/-- C1: subscribing distinct callbacks cb1..cbn in order to a fresh
`Observable` and calling `notify_observers(args)` invokes each cbi exactly
once, in subscription order, each invocation receiving the subject as
first argument followed by `args`. -/
theorem C1_notify_subscription_order [DecidableEq κ] (cbs : List κ) (args : α)
    (hnd : cbs.Nodup) :
    (Observable.notify_observers (subscribeAll (Observable.init κ) cbs) args).map
      Invocation.cb = cbs ∧
    (∀ cb ∈ cbs,
      ((Observable.notify_observers (subscribeAll (Observable.init κ) cbs) args).map
        Invocation.cb).count cb = 1) ∧
    (∀ inv ∈ Observable.notify_observers (subscribeAll (Observable.init κ) cbs) args,
      inv.subject = subscribeAll (Observable.init κ) cbs ∧ inv.args = args) := by
  have hobs : (subscribeAll (Observable.init κ) cbs)._observers = cbs := by
    rw [subscribeAll_observers]
    rfl
  have hmap : (Observable.notify_observers (subscribeAll (Observable.init κ) cbs)
      args).map Invocation.cb = cbs := by
    rw [Observable.notify_observers, notifyList_map_cb, hobs]
  refine ⟨hmap, ?_, ?_⟩
  · intro cb hcb
    rw [hmap]
    exact List.count_eq_one_of_mem hnd hcb
  · exact notifyList_mem _ _ _

/-- C1 witness: three distinct callbacks subscribed to a fresh subject,
notified with argument 42. -/
theorem C1_witness :
    ([10, 20, 30] : List Nat).Nodup ∧
    ((Observable.notify_observers (subscribeAll (Observable.init Nat) [10, 20, 30]) 42).map
      Invocation.cb = [10, 20, 30] ∧
    (∀ cb ∈ ([10, 20, 30] : List Nat),
      ((Observable.notify_observers (subscribeAll (Observable.init Nat) [10, 20, 30]) 42).map
        Invocation.cb).count cb = 1) ∧
    (∀ inv ∈ Observable.notify_observers (subscribeAll (Observable.init Nat) [10, 20, 30]) 42,
      inv.subject = subscribeAll (Observable.init Nat) [10, 20, 30] ∧ inv.args = 42)) :=
  ⟨by decide, C1_notify_subscription_order [10, 20, 30] 42 (by decide)⟩

/-- C2: for every integer n and every `Score` state, the `value` setter
followed by the getter returns n, and the setter triggers exactly one
notification cycle, notifying each current subscriber in order. -/
theorem C2_setValue_getValue (s : Score κ) (n : Int) :
    Score.getValue (Score.setValue s n).1 = n ∧
    (Score.setValue s n).2.length = 1 ∧
    (Score.setValue s n).2.map (fun c => c.map Invocation.cb) = [s._observers] := by
  refine ⟨rfl, rfl, ?_⟩
  simp only [Score.setValue, List.map_cons, List.map_nil, notifyList_map_cb]

/-- C3: `unsubscribe` removes the first matching occurrence and raises a
catchable `ValueError` when the callback is absent: after subscribing a
previously absent cb once, the first `unsubscribe` restores the original
state, a second `unsubscribe` fails with `ValueError`, and a later
`notify_observers` on that state never invokes cb. -/
theorem C3_unsubscribe_idempotence [DecidableEq κ] (s : Observable κ) (cb : κ)
    (args : α) (h : cb ∉ s._observers) :
    Observable.unsubscribe (Observable.subscribe s cb) cb = Except.ok s ∧
    Observable.unsubscribe s cb = Except.error PyError.valueError ∧
    ((Observable.notify_observers s args).map Invocation.cb).count cb = 0 := by
  refine ⟨?_, ?_, ?_⟩
  · rw [Observable.unsubscribe]
    have : (Observable.subscribe s cb)._observers = s._observers ++ [cb] := rfl
    rw [this, list_remove_append_not_mem cb s._observers h]
  · rw [Observable.unsubscribe, list_remove_not_mem cb s._observers h]
  · rw [Observable.notify_observers, notifyList_map_cb]
    exact List.count_eq_zero_of_not_mem h

/-- C3 witness: cb 5 is absent from the subject with subscribers 1, 2. -/
theorem C3_witness :
    (5 ∉ (Observable.mk [1, 2] : Observable Nat)._observers) ∧
    (Observable.unsubscribe (Observable.subscribe (Observable.mk [1, 2]) 5) 5 =
      Except.ok (Observable.mk ([1, 2] : List Nat)) ∧
    Observable.unsubscribe (Observable.mk ([1, 2] : List Nat)) 5 =
      Except.error PyError.valueError ∧
    ((Observable.notify_observers (Observable.mk ([1, 2] : List Nat)) 0).map
      Invocation.cb).count 5 = 0) :=
  ⟨by decide, C3_unsubscribe_idempotence (Observable.mk [1, 2]) 5 0 (by decide)⟩

/-- C4: the three `User` field setters each trigger zero notifications;
after setting f, l, e, `save()` succeeds, triggers exactly one
notification cycle, and the accessors return exactly the values set
before the save. -/
theorem C4_user_setters_silent_save_notifies (u : User κ) (f l e : String) :
    (User.setFirstname u f).2 = [] ∧
    (User.setLastname u l).2 = [] ∧
    (User.setEmail u e).2 = [] ∧
    (∃ u' t, User.save (User.setEmail (User.setLastname
        (User.setFirstname u f).1 l).1 e).1 = Except.ok (u', t) ∧
      t.length = 1 ∧
      User.getFirstname u' = Except.ok f ∧
      User.getLastname u' = Except.ok l ∧
      User.getEmail u' = Except.ok e) := by
  refine ⟨rfl, rfl, rfl, ?_⟩
  exact ⟨_, _, rfl, rfl, rfl, rfl, rfl⟩

/-- C5: `ScoreController.increment` takes a model with value v to value
v + 1 with exactly one notification cycle; `decrement` yields v - 1,
also with exactly one cycle. -/
theorem C5_controller_increment_decrement (m : Score κ) :
    (ScoreController.increment m).1.value = m.value + 1 ∧
    (ScoreController.increment m).2.length = 1 ∧
    (ScoreController.decrement m).1.value = m.value - 1 ∧
    (ScoreController.decrement m).2.length = 1 :=
  ⟨rfl, rfl, rfl, rfl⟩

/-- C6: on a `User` model whose subscriber list holds observer B once,
`UserController.save(f, l, e)` writes the three fields and then calls the
model's `save()`; the whole call produces exactly one notification cycle,
in which B is invoked exactly once, and afterwards the three accessors
return exactly the three argument strings. -/
theorem C6_user_controller_save [DecidableEq κ] (u : User κ) (B : κ)
    (f l e : String) (h : u._observers.count B = 1) :
    ∃ u' c, UserController.save u f l e = Except.ok (u', [c]) ∧
      (c.map Invocation.cb).count B = 1 ∧
      User.getFirstname u' = Except.ok f ∧
      User.getLastname u' = Except.ok l ∧
      User.getEmail u' = Except.ok e := by
  refine ⟨_, _, rfl, ?_, rfl, rfl, rfl⟩
  rw [notifyList_map_cb]
  exact h

/-- C6 witness: fresh `User` model with observer 7 subscribed, saved with
the scenario-2 values. -/
theorem C6_witness :
    (User.subscribe (User.init Nat) 7)._observers.count 7 = 1 ∧
    (∃ u' c, UserController.save (User.subscribe (User.init Nat) 7)
        "Ada" "Lovelace" "ada@example.com" = Except.ok (u', [c]) ∧
      (c.map Invocation.cb).count 7 = 1 ∧
      User.getFirstname u' = Except.ok "Ada" ∧
      User.getLastname u' = Except.ok "Lovelace" ∧
      User.getEmail u' = Except.ok "ada@example.com") :=
  ⟨by decide,
   C6_user_controller_save (User.subscribe (User.init Nat) 7) 7
     "Ada" "Lovelace" "ada@example.com" (by decide)⟩

/-- C7 counterexample: subscribing callback 0 twice to a fresh subject
makes `notify_observers` invoke it twice in the cycle, not exactly once as
the claim states. -/
theorem C7_counterexample :
    ¬ (((Observable.notify_observers
        (Observable.subscribe (Observable.subscribe (Observable.init Nat) 0) 0)
        ()).map Invocation.cb).count 0 = 1) := by
  decide

/-- C7 amended: in every state of an `Observable` subject, each callback
is invoked exactly once per occurrence in the subscriber sequence — the
number of invocations equals the callback's multiplicity in the sequence
— and every invocation carries the subject as first argument. -/
theorem C7_once_per_occurrence [DecidableEq κ] (s : Observable κ) (cb : κ)
    (args : α) :
    ((Observable.notify_observers s args).map Invocation.cb).count cb =
      s._observers.count cb ∧
    ∀ inv ∈ Observable.notify_observers s args,
      inv.subject = s ∧ inv.args = args := by
  refine ⟨?_, notifyList_mem _ _ _⟩
  rw [Observable.notify_observers, notifyList_map_cb]

/-- C8 counterexample: on a freshly constructed `User` model every
accessor raises `AttributeError` (the backing attribute was never
assigned) instead of returning a string or sentinel value. -/
theorem C8_counterexample :
    User.getFirstname (User.init Nat) = Except.error PyError.attributeError ∧
    User.getLastname (User.init Nat) = Except.error PyError.attributeError ∧
    User.getEmail (User.init Nat) = Except.error PyError.attributeError :=
  ⟨rfl, rfl, rfl⟩

/-- C8 amended: for a freshly constructed `User` model, each of the three
accessors fails with an `AttributeError` rather than returning a value. -/
theorem C8_fresh_accessors_raise (κ : Type) :
    User.getFirstname (User.init κ) = Except.error PyError.attributeError ∧
    User.getLastname (User.init κ) = Except.error PyError.attributeError ∧
    User.getEmail (User.init κ) = Except.error PyError.attributeError :=
  ⟨rfl, rfl, rfl⟩

/-- C9: constructing a `Score` with seed v assigns through the notifying
setter, so exactly one notification cycle runs during construction; that
cycle performs zero invocations because the subscriber list is still
empty, and afterwards the value is v and the subscriber list is empty. -/
theorem C9_score_init (κ : Type) (v : Int) :
    (Score.init κ v).1.value = v ∧
    (Score.init κ v).1._observers = [] ∧
    (Score.init κ v).2 = [[]] :=
  ⟨rfl, rfl, rfl⟩

/-- C10: a failing `unsubscribe` of an unsubscribed callback yields only
the `ValueError` — no successor state is produced, so the subject's
subscriber sequence is exactly as it was (CPython's `list.remove` raises
without mutating). -/
theorem C10_unsubscribe_failure_atomic [DecidableEq κ] (s : Observable κ)
    (cb : κ) (h : cb ∉ s._observers) :
    Observable.unsubscribe s cb = Except.error PyError.valueError := by
  rw [Observable.unsubscribe, list_remove_not_mem cb s._observers h]

/-- C10 witness: callback 9 is not among subscribers 1, 2, 3. -/
theorem C10_witness :
    (9 ∉ (Observable.mk [1, 2, 3] : Observable Nat)._observers) ∧
    Observable.unsubscribe (Observable.mk ([1, 2, 3] : List Nat)) 9 =
      Except.error PyError.valueError :=
  ⟨by decide, C10_unsubscribe_failure_atomic (Observable.mk [1, 2, 3]) 9 (by decide)⟩
